import Mathlib

/-!
Verification of the tool-call dispatch and webhook-invocation subsystem of
the realtime chat client (client/lib/tools.js and the ToolPanel dispatch
effect in client/components/ToolPanel.jsx).

The JavaScript source is shallowly embedded: JSON documents become the
`Json` inductive with a serializer modelling `JSON.stringify`; browser
builtins (`fetch`, `JSON.parse` of the raw argument string, the env-var
snapshot access) become explicit oracles passed as arguments; every
stateful effect becomes explicit state passing.
-/

/-- A JSON document, as produced by `JSON.parse` / consumed by
`JSON.stringify`.  Numbers are modelled as integers (the subsystem only
serializes integral numbers such as HTTP status codes). -/
inductive Json where
  | null : Json
  | bool (b : Bool) : Json
  | num (n : Int) : Json
  | str (s : String) : Json
  | arr (elems : List Json) : Json
  | obj (fields : List (String × Json)) : Json
deriving Repr

/-- Escaping of one character inside a JSON string literal, as done by
`JSON.stringify`. -/
def jsonEscapeChar (c : Char) : String :=
  if c = '"' then "\\\""
  else if c = '\\' then "\\\\"
  else if c = '\n' then "\\n"
  else if c = '\t' then "\\t"
  else if c = '\r' then "\\r"
  else String.singleton c

/-- Escaping of a whole string body, as done by `JSON.stringify`. -/
def jsonEscape (s : String) : String :=
  String.join (s.data.map jsonEscapeChar)

mutual

/-- `JSON.stringify` (no indentation), preserving object key order. -/
def Json.serialize : Json → String
  | .null => "null"
  | .bool true => "true"
  | .bool false => "false"
  | .num n => toString n
  | .str s => "\"" ++ jsonEscape s ++ "\""
  | .arr elems => "[" ++ Json.serializeElems elems ++ "]"
  | .obj fields => "\x7b" ++ Json.serializeFields fields ++ "\x7d"

/-- Comma-separated serialization of array elements. -/
def Json.serializeElems : List Json → String
  | [] => ""
  | [j] => Json.serialize j
  | j :: rest => Json.serialize j ++ "," ++ Json.serializeElems rest

/-- Comma-separated serialization of object fields. -/
def Json.serializeFields : List (String × Json) → String
  | [] => ""
  | [(k, j)] => "\"" ++ jsonEscape k ++ "\":" ++ Json.serialize j
  | (k, j) :: rest =>
      "\"" ++ jsonEscape k ++ "\":" ++ Json.serialize j ++ "," ++ Json.serializeFields rest

end

/-- JavaScript truthiness of a JSON value (`null`, `false`, `0` and `""`
are falsy; objects and arrays are always truthy). -/
def jsonTruthy : Json → Bool
  | .null => false
  | .bool b => b
  | .num n => n != 0
  | .str s => s != ""
  | .arr _ => true
  | .obj _ => true

/-- Property access `j[k]` on a JSON object (`undefined` is `none`). -/
def jsonField (j : Json) (k : String) : Option Json :=
  match j with
  | .obj fields => (fields.find? (fun p => p.1 == k)).map (fun p => p.2)
  | _ => none

/-- Truthiness of `j[k]` for an optional JSON value (`undefined` is falsy). -/
def jsonFieldTruthy (j : Json) (k : String) : Bool :=
  match jsonField j k with
  | some v => jsonTruthy v
  | none => false

/-- Truthiness of an optional string (absent and `""` are falsy). -/
def strTruthy : Option String → Bool
  | none => false
  | some s => s != ""

/-- JavaScript `x || null` on an optional string: keeps the string only
when truthy. -/
def optStr : Option String → Option String
  | none => none
  | some s => if s = "" then none else some s

/-- Truthiness of an optional JSON value (`undefined` is falsy). -/
def payloadTruthy : Option Json → Bool
  | none => false
  | some j => jsonTruthy j

/-- `String.prototype.toLowerCase` (ASCII case folding), computed on the
character list so concrete instances evaluate. -/
def strToLower (s : String) : String :=
  String.mk (s.data.map Char.toLower)

/-- `key.replace(/_/g, '-')`: global single-character replacement. -/
def replaceUnderscores (s : String) : String :=
  String.mk (s.data.map (fun c => if c = '_' then '-' else c))

/-- `String.prototype.trim` (drop leading and trailing whitespace). -/
def strTrim (s : String) : String :=
  String.mk (((s.data.dropWhile Char.isWhitespace).reverse.dropWhile
    Char.isWhitespace).reverse)

/-- Whether a character list starts with the given pattern. -/
def subListAt : List Char → List Char → Bool
  | _, [] => true
  | [], _ :: _ => false
  | c :: cs, p :: ps => c == p && subListAt cs ps

/-- Whether a character list contains the pattern as a contiguous run. -/
def hasSubList (pattern0 : List Char) : List Char → Bool
  | [] => subListAt [] pattern0
  | c :: cs => subListAt (c :: cs) pattern0 || hasSubList pattern0 cs

/-- JavaScript `String.prototype.includes` (substring containment). -/
def strIncludes (s sub : String) : Bool :=
  hasSubList sub.data s.data

/-- JavaScript `String.prototype.startsWith`. -/
def strStartsWith (s pre : String) : Bool :=
  subListAt s.data pre.data

/-- Suffix test on strings, via the underlying character lists. -/
def strEndsWith (s suf : String) : Bool :=
  decide (suf.data <:+ s.data)

/-!  ## Dispatch Engine / Conversation Bridge

Embeds the function-call dispatch effect of `ToolPanel`
(src ToolPanel.jsx, the `useEffect` watching `events`), together with
`sendResult` and the unprotected re-parse of the raw argument string
performed by `addToToolCallHistory`.
-/

/-- A tool handler settlement record `{status, content}`. -/
structure ToolResult where
  status : String
  content : String
deriving Repr, DecidableEq

/-- Builds a `ToolResult` whose content is `JSON.stringify doc`; every
handler return site in `client/lib/tools.js` has this shape. -/
def mkResult (status : String) (doc : Json) : ToolResult :=
  { status := status, content := Json.serialize doc }

/-- An outbound message handed to `sendClientEvent`. -/
inductive OutMsg where
  /-- `conversation.item.create` carrying a `function_call_output` item
  with the given `call_id` and `output` string. -/
  | itemCreate (callId : String) (output : String) : OutMsg
  /-- `response.create`, with no payload. -/
  | responseCreate : OutMsg
deriving Repr, DecidableEq

/-- `sendResult` from the ToolPanel dispatch effect: sends the
`function_call_output` item and then the `response.create` trigger. -/
def sendResult (callId : String) (content : String) : List OutMsg :=
  if callId = "" then []
  else [OutMsg.itemCreate callId content, OutMsg.responseCreate]

/-- An inbound `function_call` output entry (the fields the dispatch
effect reads; the raw `arguments` string is represented by the outcome of
`JSON.parse` on it, passed separately as an oracle). -/
structure FunctionCall where
  call_id : String
  name : String
deriving Repr, DecidableEq

/-- Settlement of the promise returned by `tool.execute(args)`:
fulfillment with a `ToolResult`, or rejection with an error whose
`message` may itself be falsy (empty). -/
inductive Settlement where
  | fulfilled (result : ToolResult) : Settlement
  | rejected (message : Option String) : Settlement
deriving Repr, DecidableEq

/-- How one run of the dispatch effect ends: either it completes having
emitted the listed messages, or an exception escapes the effect. -/
inductive DispatchOutcome where
  | completed (msgs : List OutMsg) : DispatchOutcome
  | threw : DispatchOutcome
deriving Repr, DecidableEq

/-- `addToToolCallHistory` re-parses the raw argument string
(`JSON.parse(toolCall.arguments || '{}')`) outside of any try/catch when
building the history entry; the call therefore throws again whenever the
original parse threw. -/
def addToToolCallHistory (argumentsParse : Except String Json) : Except String Unit :=
  match argumentsParse with
  | .ok _ => .ok ()
  | .error e => .error e

/-- The error `message` used in the promise-rejection branch:
`error.message || 'Tool <name> failed'`. -/
def rejectionMessage (toolName : String) (message : Option String) : String :=
  match message with
  | some m => if m = "" then "Tool " ++ toolName ++ " failed" else m
  | none => "Tool " ++ toolName ++ " failed"

/-- The content string sent for a settlement: the raw `result.content` on
fulfillment, `JSON.stringify({message})` on rejection. -/
def settledContent (toolName : String) (settle : Settlement) : String :=
  match settle with
  | .fulfilled result => result.content
  | .rejected message =>
      Json.serialize (Json.obj [("message", Json.str (rejectionMessage toolName message))])

/-- Whether the guard `activeToolCall?.call_id === callId` fires. -/
def activeCallMatches (active : Option FunctionCall) (callId : String) : Bool :=
  match active with
  | some a => a.call_id == callId
  | none => false

/-- One run of the ToolPanel dispatch effect on a `function_call` event.
`registry` is the list of tool names present in the `tools` registry,
`active` the currently tracked `activeToolCall`, `argumentsParse` the
outcome of `JSON.parse(functionCall.arguments || '{}')` and `settle` the
settlement of `tool.execute(args)`.  Returns the new `activeToolCall`,
the number of handler invocations, and how the effect ended. -/
def processFunctionCall (registry : List String) (active : Option FunctionCall)
    (argumentsParse : Except String Json) (settle : Settlement)
    (fc : FunctionCall) : Option FunctionCall × Nat × DispatchOutcome :=
  -- `if (!callId || activeToolCall?.call_id === callId) return;`
  if fc.call_id = "" then (active, 0, .completed [])
  else if activeCallMatches active fc.call_id then (active, 0, .completed [])
  -- `const tool = tools[toolName]; if (!tool) { console.warn(...); return; }`
  else if ¬ registry.contains fc.name then (active, 0, .completed [])
  else
    match argumentsParse with
    | .error parseErr =>
        -- catch branch: builds the error result, but `addToToolCallHistory`
        -- re-parses the malformed argument string first and throws before
        -- `sendResult` runs.
        (match addToToolCallHistory (.error parseErr) with
         | .error _ => (some fc, 0, .threw)
         | .ok _ =>
             (some fc, 0, .completed (sendResult fc.call_id
               (Json.serialize (Json.obj
                 [("message", Json.str ("Argument parsing error: " ++ parseErr))])))))
    | .ok _ =>
        match settle with
        | .fulfilled result =>
            (match addToToolCallHistory argumentsParse with
             | .error _ => (some fc, 1, .threw)
             | .ok _ => (some fc, 1, .completed (sendResult fc.call_id result.content)))
        | .rejected message =>
            (match addToToolCallHistory argumentsParse with
             | .error _ => (some fc, 1, .threw)
             | .ok _ =>
                 (some fc, 1, .completed (sendResult fc.call_id
                   (settledContent fc.name (.rejected message)))))

/-!  ## Tool Registry & Enablement Gate

Embeds `isToolEnabled` and `getAllToolDefinitions` from
`client/lib/tools.js`.
-/

/-- A registry entry: the tool's definition (represented by its `name`,
the registry key) and its `requiredEnvVars` list. -/
structure RegisteredTool where
  name : String
  requiredEnvVars : List String
deriving Repr, DecidableEq

/-- How the environment snapshot access inside `isToolEnabled` behaves:
server-side rendering (`typeof window === 'undefined'`), a readable
`window.__ENV__ || {}` mapping, or a thrown exception. -/
inductive EnvAccess where
  | ssr : EnvAccess
  | ok (env : List (String × Bool)) : EnvAccess
  | throws : EnvAccess

/-- `isToolEnabled(tool)`:  enabled during SSR; enabled when no env vars
are required; otherwise every required var must be present with value
`true` in the snapshot.  A throw while reading the snapshot is caught and
yields `false`. -/
def isToolEnabled (acc : EnvAccess) (tool : RegisteredTool) : Bool :=
  match acc with
  | .ssr => true
  | .throws => tool.requiredEnvVars.isEmpty
  | .ok env =>
      if tool.requiredEnvVars.isEmpty then true
      else
        let availableEnvVars := (env.filter (fun p => p.2)).map (fun p => p.1)
        tool.requiredEnvVars.all (fun v => availableEnvVars.contains v)

/-- `getAllToolDefinitions()`: filters the registry by `isToolEnabled`;
`filterThrows` models an exception escaping the filtering pass, which the
surrounding catch recovers by returning every definition. -/
def getAllToolDefinitions (acc : EnvAccess) (filterThrows : Bool)
    (registry : List RegisteredTool) : List String :=
  if filterThrows then registry.map (fun t => t.name)
  else (registry.filter (fun t => isToolEnabled acc t)).map (fun t => t.name)

/-- The `tools` registry of `client/lib/tools.js`, in insertion order,
with each tool's `requiredEnvVars`. -/
def toolsRegistry : List RegisteredTool :=
  [ { name := "display_color_palette", requiredEnvVars := [] },
    { name := "web_search", requiredEnvVars := ["SEARXNG_URL"] },
    { name := "webhook_call", requiredEnvVars := [] } ]

/-!  ## Simple tool handlers

`display_color_palette.execute` and `web_search.execute` from
`client/lib/tools.js`.  Network effects (`fetchSearchResults`) are passed
as an oracle holding either the results value or the thrown error message.
-/

/-- `display_color_palette.execute(args)`: returns success immediately
with `JSON.stringify(args)` as content. -/
def display_color_palette_execute (args : Json) : ToolResult :=
  mkResult "success" args

/-- `web_search.execute(args)`.  `query` is `args.query` (absent or empty
is falsy and throws before the fetch); `fetchOutcome` is the settlement of
`fetchSearchResults(args.query)`: the results value, or the message of the
error it threw (network failure or non-ok status). -/
def web_search_execute (query : Option String) (fetchOutcome : Except String Json) :
    ToolResult :=
  let failResult := fun (msg : String) =>
    mkResult "error" (Json.obj [("error", Json.str "Search failed"), ("message", Json.str msg)])
  match query with
  | none => failResult "Search query cannot be empty"
  | some q =>
      if strTrim q = "" then failResult "Search query cannot be empty"
      else
        match fetchOutcome with
        | .error msg => failResult msg
        | .ok results => mkResult "success" results

/-!  ## Endpoint Resolver

The endpoint-key resolution steps of `webhook_call.execute`.
-/

/-- An endpoint configuration record: either a legacy bare URL string or
a full configuration object. -/
structure EndpointObj where
  url : String
  method : Option String
  authMethod : Option String
  apiKey : Option String
  apiKeyHeaderName : Option String
  username : Option String
  password : Option String
  bearerToken : Option String
  customHeaderName : Option String
  customHeaderValue : Option String
  description : Option String
deriving Repr, DecidableEq

/-- A stored endpoint value (`savedEndpoints[key]`). -/
inductive EndpointConfig where
  | legacy (url : String) : EndpointConfig
  | obj (cfg : EndpointObj) : EndpointConfig
deriving Repr, DecidableEq

/-- An endpoint configuration object with every optional field absent. -/
def emptyEndpointObj : EndpointObj :=
  { url := "", method := none, authMethod := none, apiKey := none,
    apiKeyHeaderName := none, username := none, password := none,
    bearerToken := none, customHeaderName := none, customHeaderValue := none,
    description := none }

/-- Property lookup `store[key]` on the endpoint store. -/
def lookupKey (store : List (String × EndpointConfig)) (key : String) :
    Option EndpointConfig :=
  (store.find? (fun p => p.1 == key)).map (fun p => p.2)

/-- Key normalization: replace `_` with `-` and lowercase. -/
def normalizeKey (key : String) : String :=
  strToLower (replaceUnderscores key)

/-- Endpoint-key resolution from `webhook_call.execute`: exact key match,
then the normalized key, then a case-insensitive scan over the stored keys
comparing the lowercased key and its dash-normalized form against the
normalized raw key.  Returns the matching stored key and its config. -/
def resolveEndpoint (store : List (String × EndpointConfig)) (rawKey : String) :
    Option (String × EndpointConfig) :=
  match lookupKey store rawKey with
  | some config => some (rawKey, config)
  | none =>
      let normalizedKey := normalizeKey rawKey
      match lookupKey store normalizedKey with
      | some config => some (normalizedKey, config)
      | none =>
          match store.find? (fun p =>
              strToLower p.1 == normalizedKey ||
              replaceUnderscores (strToLower p.1) == normalizedKey) with
          | some p => some (p.1, p.2)
          | none => none

/-!  ## Webhook Invoker

`callWebhook`, `isSearxngEndpoint`, `cleanSearxngParams` and the models of
the browser builtins they use (`encodeURIComponent`, `URLSearchParams`,
`btoa`).
-/

/-- Hexadecimal digit (uppercase), for percent-encoding. -/
def hexDigitChar (n : Nat) : Char :=
  if n < 10 then Char.ofNat (48 + n) else Char.ofNat (55 + (n - 10))

/-- Percent-encoding of one byte. -/
def percentEncodeByte (b : Nat) : String :=
  "%" ++ String.singleton (hexDigitChar (b / 16 % 16)) ++ String.singleton (hexDigitChar (b % 16))

/-- Percent-encoding of every UTF-8 byte of one character. -/
def percentEncodeChar (c : Char) : String :=
  String.join (((String.singleton c).toUTF8.toList).map (fun b => percentEncodeByte b.toNat))

/-- Characters `encodeURIComponent` leaves unescaped. -/
def uriUnreservedChar (c : Char) : Bool :=
  c.isAlphanum || c = '-' || c = '_' || c = '.' || c = '!' || c = '~' ||
  c = '*' || c = Char.ofNat 39 || c = '(' || c = ')'

/-- `encodeURIComponent`. -/
def encodeURIComponent (s : String) : String :=
  String.join (s.data.map (fun c =>
    if uriUnreservedChar c then String.singleton c else percentEncodeChar c))

/-- Characters `URLSearchParams` serialization leaves unescaped. -/
def formUnreservedChar (c : Char) : Bool :=
  c.isAlphanum || c = '*' || c = '-' || c = '.' || c = '_'

/-- `application/x-www-form-urlencoded` encoding of one component
(space becomes `+`). -/
def formEncode (s : String) : String :=
  String.join (s.data.map (fun c =>
    if formUnreservedChar c then String.singleton c
    else if c = ' ' then "+"
    else percentEncodeChar c))

/-- `URLSearchParams.toString()` over an ordered list of appended pairs. -/
def paramsToString (params : List (String × String)) : String :=
  String.intercalate "&" (params.map (fun p => formEncode p.1 ++ "=" ++ formEncode p.2))

/-- `Object.entries(payload)` restricted to the object case (the payload
schema declares an object; other values contribute no entries). -/
def jsonEntries : Json → List (String × Json)
  | .obj fields => fields
  | _ => []

/-- `isSearxngEndpoint(url, key, description)` from `client/lib/tools.js`. -/
def isSearxngEndpoint (url : String) (key : String) (description : Option String) : Bool :=
  strIncludes url "searx" ||
  strIncludes url ":8080/search" ||
  strIncludes (strToLower key) "searx" ||
  (match description with
   | some d => d != "" && strIncludes (strToLower d) "searx"
   | none => false)

/-- `cleanSearxngParams(params)`: drops the parameters that break SearXNG
query parsing. -/
def cleanSearxngParams (params : List (String × String)) : List (String × String) :=
  params.filter (fun p => p.1 != "category_general" && p.1 != "categories_general")

/-- `btoa` (base64) over a list of byte values. -/
def base64EncodeBytes : List Nat → List Char
  | [] => []
  | [b1] =>
      [base64Char (b1 / 4), base64Char (b1 % 4 * 16), '=', '=']
  | [b1, b2] =>
      [base64Char (b1 / 4), base64Char (b1 % 4 * 16 + b2 / 16),
       base64Char (b2 % 16 * 4), '=']
  | b1 :: b2 :: b3 :: rest =>
      [base64Char (b1 / 4), base64Char (b1 % 4 * 16 + b2 / 16),
       base64Char (b2 % 16 * 4 + b3 / 64), base64Char (b3 % 64)] ++
      base64EncodeBytes rest
where
  base64Char (n : Nat) : Char :=
    "ABCDEFGHIJKLMNOPQRSTUVWXYZabcdefghijklmnopqrstuvwxyz0123456789+/".data.getD n 'A'

/-- `btoa(s)` on the string's bytes. -/
def btoa (s : String) : String :=
  String.mk (base64EncodeBytes (s.toUTF8.toList.map (fun b => b.toNat)))

/-- The outbound HTTP request handed to `fetch`. -/
structure HttpRequest where
  url : String
  method : String
  headers : List (String × String)
  body : Option String
deriving Repr, DecidableEq

/-- The observable parts of a `fetch` response: `ok`, `status`, the
`content-type` header, the outcome of `response.json()` when attempted,
and the text body. -/
structure HttpResponse where
  ok : Bool
  status : Int
  contentType : Option String
  jsonParse : Option Json
  text : String

/-- Settlement of `fetch`: a response, or a rejection (transport failure). -/
inductive NetOutcome where
  | response (resp : HttpResponse) : NetOutcome
  | failure (msg : String) : NetOutcome

/-- JavaScript object property assignment `headers[name] = value`:
overwrites in place if present, appends otherwise. -/
def setHeader (headers : List (String × String)) (name value : String) :
    List (String × String) :=
  if headers.any (fun p => p.1 == name) then
    headers.map (fun p => if p.1 == name then (name, value) else p)
  else headers ++ [(name, value)]

/-- The header construction of `callWebhook`: `Content-Type` baseline plus
the auth header selected by `authMethod`, each credential applied only
when present (truthy). -/
def buildHeaders (endpointConfig : EndpointConfig) : List (String × String) :=
  let base := [("Content-Type", "application/json")]
  match endpointConfig with
  | .legacy _ => base
  | .obj cfg =>
      match (optStr cfg.authMethod).getD "none" with
      | "apiKey" =>
          if strTruthy cfg.apiKey then
            setHeader base ((optStr cfg.apiKeyHeaderName).getD "X-API-Key")
              (cfg.apiKey.getD "")
          else base
      | "basicAuth" =>
          if strTruthy cfg.username then
            setHeader base "Authorization"
              ("Basic " ++ btoa (cfg.username.getD "" ++ ":" ++ (optStr cfg.password).getD ""))
          else base
      | "bearerToken" =>
          if strTruthy cfg.bearerToken then
            setHeader base "Authorization" ("Bearer " ++ cfg.bearerToken.getD "")
          else base
      | "customHeader" =>
          if strTruthy cfg.customHeaderName && strTruthy cfg.customHeaderValue then
            setHeader base (cfg.customHeaderName.getD "") (cfg.customHeaderValue.getD "")
          else base
      | _ => base

/-- Normalization of a `fetch` response body by `callWebhook`: JSON
content types are parsed (falling back to a text wrapper when parsing
fails); everything else is wrapped as `{text, _non_json_response: true}`. -/
def normalizeResponseBody (resp : HttpResponse) : Json :=
  let textWrap := Json.obj
    [("text", Json.str (if resp.text = "" then "Empty response" else resp.text)),
     ("_non_json_response", Json.bool true)]
  match resp.contentType with
  | some ct =>
      if ct ≠ "" && strIncludes ct "application/json" then
        match resp.jsonParse with
        | some data => data
        | none => textWrap
      else textWrap
  | none => textWrap

/-- The URL of a stored endpoint value. -/
def endpointUrl (endpointConfig : EndpointConfig) : String :=
  match endpointConfig with
  | .legacy s => s
  | .obj cfg => cfg.url

/-- The description `callWebhook` reads from the config (possibly absent;
its truthiness is checked by `isSearxngEndpoint`). -/
def callWebhookDescription (endpointConfig : EndpointConfig) : Option String :=
  match endpointConfig with
  | .legacy _ => none
  | .obj cfg => cfg.description

/-- `callWebhook`'s own method enforcement: the endpoint's declared
method when the config is an object with a truthy non-`ANY` method, else
the caller-passed method. -/
def callWebhookRequiredMethod (method : String) (endpointConfig : EndpointConfig) : String :=
  match endpointConfig with
  | .legacy _ => method
  | .obj cfg =>
      match optStr cfg.method with
      | some m => if m ≠ "ANY" then m else method
      | none => method

/-- The final URL of a GET request: payload entries become query-string
parameters (non-string values JSON-stringified), SearXNG endpoints get
their parameters cleaned; external URLs have already been rewritten to
the proxy URL, so parameters are appended with `&`. -/
def callWebhookGetUrl (host : String) (endpointConfig : EndpointConfig)
    (payload : Option Json) : String :=
  let url := endpointUrl endpointConfig
  let isExternalUrl := strStartsWith url "http" && !(strIncludes url host)
  let targetUrl := if isExternalUrl then "/api/proxy?url=" ++ encodeURIComponent url else url
  if payloadTruthy payload then
    let params := (jsonEntries (payload.getD Json.null)).map (fun p =>
      (p.1, match p.2 with
            | Json.str s => s
            | v => Json.serialize v))
    if isSearxngEndpoint url "" (callWebhookDescription endpointConfig) then
      let cleanedParams := cleanSearxngParams params
      if isExternalUrl then targetUrl ++ "&" ++ paramsToString cleanedParams
      else url ++ "?" ++ paramsToString cleanedParams
    else
      if isExternalUrl then targetUrl ++ "&" ++ paramsToString params
      else url ++ "?" ++ paramsToString params
  else targetUrl

/-- The single HTTP request `callWebhook` hands to `fetch`: GET requests
carry the payload in the query string and no body; every other enforced
method is issued as a POST whose JSON body defaults to the empty
object. -/
def callWebhookRequest (host method : String) (endpointConfig : EndpointConfig)
    (payload : Option Json) : HttpRequest :=
  let url := endpointUrl endpointConfig
  let isExternalUrl := strStartsWith url "http" && !(strIncludes url host)
  let targetUrl := if isExternalUrl then "/api/proxy?url=" ++ encodeURIComponent url else url
  let headers := buildHeaders endpointConfig
  if callWebhookRequiredMethod method endpointConfig = "GET" then
    { url := callWebhookGetUrl host endpointConfig payload,
      method := "GET", headers := headers, body := none }
  else
    { url := targetUrl, method := "POST", headers := headers,
      body := some (if payloadTruthy payload
        then Json.serialize (payload.getD Json.null)
        else Json.serialize (Json.obj [])) }

/-- `callWebhook(method, endpointConfig, payload)`.  `host` is
`window.location.host`; `net` is the `fetch` oracle.  Returns the
settlement (normalized response data, or the thrown error message) and
the single HTTP request that was issued. -/
def callWebhook (host : String) (net : HttpRequest → NetOutcome)
    (method : String) (endpointConfig : EndpointConfig) (payload : Option Json) :
    Except String Json × List HttpRequest :=
  let request := callWebhookRequest host method endpointConfig payload
  match net request with
  | .failure msg => (.error msg, [request])
  | .response resp =>
      if ¬ resp.ok then
        (.error ("Webhook request failed with status: " ++ toString resp.status), [request])
      else
        (.ok (normalizeResponseBody resp), [request])

/-!  ## The `webhook_call` tool handler

`tools.webhook_call.execute` from `client/lib/tools.js`.
-/

/-- The arguments object of a `webhook_call` invocation (the fields the
handler reads). -/
structure WebhookArgs where
  endpoint_key : String
  method : Option String
  payload : Option Json
  query : Option String
deriving Repr

/-- `description`: the endpoint description when the config is an object
and the field is truthy, else null. -/
def webhookDescription (endpointConfig : EndpointConfig) : Option String :=
  match endpointConfig with
  | .legacy _ => none
  | .obj cfg => optStr cfg.description

/-- `requiredMethod`: the endpoint's declared method when the config is
an object and the field is truthy, else `ANY`. -/
def webhookRequiredMethod (endpointConfig : EndpointConfig) : String :=
  match endpointConfig with
  | .legacy _ => "ANY"
  | .obj cfg => (optStr cfg.method).getD "ANY"

/-- `isSearchEndpoint`: the matched key or the (truthy) description
contains "search", case-insensitively. -/
def isSearchEndpointKey (matchingKey : String) (description : Option String) : Bool :=
  strIncludes (strToLower matchingKey) "search" ||
  (match description with
   | some d => d != "" && strIncludes (strToLower d) "search"
   | none => false)

/-- Truthiness of `payload && payload.query`. -/
def payloadQueryTruthy : Option Json → Bool
  | none => false
  | some p => jsonFieldTruthy p "query"

/-- The `errorMsg` of the endpoint-not-found branch: enumerates the
configured keys (`Available endpoints: ...`, or `None` when the joined
key list is the empty string). -/
def notFoundMessage (store : List (String × EndpointConfig)) (rawKey : String) : String :=
  let availableEndpoints := String.intercalate ", " (store.map (fun p => p.1))
  "Endpoint \"" ++ rawKey ++ "\" not found. " ++
    ("Available endpoints: " ++ (if availableEndpoints = "" then "None" else availableEndpoints))

/-- The error document returned when the endpoint key resolves to no
stored configuration. -/
def notFoundDoc (store : List (String × EndpointConfig)) (rawKey : String) : Json :=
  Json.obj
    [("error", Json.str (notFoundMessage store rawKey)),
     ("available_endpoints", Json.arr (store.map (fun p => Json.str p.1)))]

/-- The error document returned when a POST-only endpoint is invoked
without a payload: the message carries the endpoint's declared
description. -/
def payloadRequiredDoc (matchingKey : String) (requiredMethod : String)
    (description : Option String) : Json :=
  Json.obj
    [("error", Json.str ("POST request to \"" ++ matchingKey ++
        "\" requires a payload. " ++ description.getD "")),
     ("endpoint_info", Json.obj
       [("name", Json.str matchingKey),
        ("required_method", Json.str requiredMethod),
        ("description", match description with
                        | some d => Json.str d
                        | none => Json.null)])]

/-- The `note` string attached to successful webhook results. -/
def webhookResponseNote (isSearchEndpoint : Bool) : String :=
  if isSearchEndpoint then
    "IMPORTANT: Don\x27t repeat these search results verbatim. Summarize key information and respond in a natural way. If the query yielded no useful results, acknowledge this and offer to try a different search."
  else "Process this data intelligently instead of repeating it verbatim."

/-- The SearXNG GET-to-POST switch: SearXNG endpoints receiving a GET
with a truthy `query` payload field are issued as POST instead. -/
def searxFinalMethod (isSearxEngine : Bool) (actualMethod : String)
    (actualPayload : Option Json) : String :=
  if isSearxEngine = true ∧ actualMethod = "GET" ∧
      payloadTruthy actualPayload = true ∧ payloadQueryTruthy actualPayload = true
  then "POST" else actualMethod

/-- The tail of `webhook_call.execute` once the payload has been settled:
applies the SearXNG GET-to-POST switch, calls `callWebhook`, and wraps its
settlement (the outer catch turns a thrown error into an error result
listing the configured endpoints). -/
def webhookFinish (host : String) (net : HttpRequest → NetOutcome)
    (store : List (String × EndpointConfig)) (matchingKey : String)
    (endpointConfig : EndpointConfig) (description : Option String)
    (isSearchEndpoint isSearxEngine : Bool)
    (actualMethod : String) (actualPayload : Option Json) :
    ToolResult × List HttpRequest :=
  -- Special handling for SearXNG - they need POST method for reliable results
  match callWebhook host net (searxFinalMethod isSearxEngine actualMethod actualPayload)
      endpointConfig actualPayload with
  | (.error msg, requests) =>
      (mkResult "error" (Json.obj
        [("error", Json.str msg),
         ("available_endpoints", Json.arr (store.map (fun p => Json.str p.1)))]),
       requests)
  | (.ok data, requests) =>
      (mkResult "success" (Json.obj
        ([("endpoint", Json.str matchingKey), ("data", data)] ++
         (if jsonTruthy data = true ∧ jsonFieldTruthy data "_non_json_response" = true
          then [("format", Json.str "text")] else []) ++
         [("endpoint_description", Json.str (description.getD "No description available")),
          ("note", Json.str (webhookResponseNote isSearchEndpoint))])),
       requests)

/-- `tools.webhook_call.execute(args)`.  `host` is `window.location.host`,
`net` the `fetch` oracle, `store` the parsed `webhookEndpoints` record
from localStorage.  Returns the `ToolResult` and the list of HTTP requests
issued (empty when the handler returns before any network call). -/
def webhook_call_execute (host : String) (net : HttpRequest → NetOutcome)
    (store : List (String × EndpointConfig)) (args : WebhookArgs) :
    ToolResult × List HttpRequest :=
  match resolveEndpoint store args.endpoint_key with
  | none => (mkResult "error" (notFoundDoc store args.endpoint_key), [])
  | some (matchingKey, endpointConfig) =>
      let description := webhookDescription endpointConfig
      let requiredMethod := webhookRequiredMethod endpointConfig
      -- Determine which HTTP method to use - prioritize endpoint required method
      let actualMethod := if requiredMethod ≠ "ANY" then requiredMethod
        else (optStr args.method).getD "GET"
      let isSearchEndpoint := isSearchEndpointKey matchingKey description
      let isSearxEngine :=
        isSearxngEndpoint (endpointUrl endpointConfig) matchingKey description
      -- For POST endpoints, ensure there is a payload
      if actualMethod = "POST" ∧ payloadTruthy args.payload = false then
        if isSearchEndpoint = true ∧ strTruthy args.query = true then
          -- Auto-creating search payload with query
          webhookFinish host net store matchingKey endpointConfig description
            isSearchEndpoint isSearxEngine actualMethod
            (some (Json.obj [("query", Json.str (args.query.getD ""))]))
        else if requiredMethod = "POST" then
          -- Only error if the endpoint actually requires POST
          (mkResult "error" (payloadRequiredDoc matchingKey requiredMethod description), [])
        else
          webhookFinish host net store matchingKey endpointConfig description
            isSearchEndpoint isSearxEngine actualMethod args.payload
      else
        webhookFinish host net store matchingKey endpointConfig description
          isSearchEndpoint isSearxEngine actualMethod args.payload

/-!  ## Shared helper lemmas -/

/-- Appending a string makes it a suffix of the result. -/
theorem strEndsWith_append (a b : String) : strEndsWith (a ++ b) b = true := by
  simp only [strEndsWith, String.data_append, decide_eq_true_eq]
  exact List.suffix_append a.data b.data

/-- `callWebhook` always issues exactly the request built by
`callWebhookRequest`. -/
theorem callWebhook_requests (host : String) (net : HttpRequest → NetOutcome)
    (method : String) (endpointConfig : EndpointConfig) (payload : Option Json) :
    (callWebhook host net method endpointConfig payload).2
      = [callWebhookRequest host method endpointConfig payload] := by
  unfold callWebhook
  dsimp only
  split
  · rfl
  · split <;> rfl

/-- The issued request's method is GET precisely when the enforced method
is GET, and POST otherwise. -/
theorem callWebhookRequest_method (host method : String)
    (endpointConfig : EndpointConfig) (payload : Option Json) :
    (callWebhookRequest host method endpointConfig payload).method
      = (if callWebhookRequiredMethod method endpointConfig = "GET"
         then "GET" else "POST") := by
  unfold callWebhookRequest
  split
  · simp [*]
  · simp [*]

/-- `webhookFinish` issues exactly the request built from the
SearXNG-adjusted method. -/
theorem webhookFinish_requests (host : String) (net : HttpRequest → NetOutcome)
    (store : List (String × EndpointConfig)) (matchingKey : String)
    (endpointConfig : EndpointConfig) (description : Option String)
    (isSearchEndpoint isSearxEngine : Bool)
    (actualMethod : String) (actualPayload : Option Json) :
    (webhookFinish host net store matchingKey endpointConfig description
        isSearchEndpoint isSearxEngine actualMethod actualPayload).2
      = [callWebhookRequest host
          (searxFinalMethod isSearxEngine actualMethod actualPayload)
          endpointConfig actualPayload] := by
  unfold webhookFinish
  rw [← callWebhook_requests host net
    (searxFinalMethod isSearxEngine actualMethod actualPayload) endpointConfig actualPayload]
  split <;> simp_all

/-!  ## Claims -/

/-- Claim C1.  The claim states that every settlement of a dispatched
tool handler — success, rejection, or an argument-parse failure — makes
the dispatch engine emit exactly the two-message sequence
(`function_call_output` item, then `response.create`) and that the engine
never throws.  The code violates this on the argument-parse-failure path:
`addToToolCallHistory` re-parses the malformed argument string outside
any try/catch and throws before `sendResult` runs, so no message at all
is emitted (first conjunct).  On a successful parse the two-message
sequence is emitted as claimed (second conjunct). -/
theorem dispatch_argparse_failure_sends_nothing :
    processFunctionCall ["web_search"] none
        (Except.error "Unexpected token i in JSON at position 1")
        (Settlement.fulfilled { status := "success", content := "[]" })
        { call_id := "call_9", name := "web_search" }
      = (some { call_id := "call_9", name := "web_search" }, 0, DispatchOutcome.threw)
  ∧ processFunctionCall ["web_search"] none (Except.ok (Json.obj []))
        (Settlement.fulfilled { status := "success", content := "[]" })
        { call_id := "call_9", name := "web_search" }
      = (some { call_id := "call_9", name := "web_search" }, 1,
         DispatchOutcome.completed
           [OutMsg.itemCreate "call_9" "[]", OutMsg.responseCreate]) := by
  exact ⟨rfl, rfl⟩

/-- Claim C2.  Two function-call events sharing one `callId`: the first
dispatch (with parsable arguments and a registered tool) invokes the
handler exactly once and emits the two-message sequence; the second event
finds its `callId` equal to the tracked ActiveCall's `call_id` and is
ignored — no handler invocation and no messages. -/
theorem dispatch_dedup_single_invocation (registry : List String)
    (active : Option FunctionCall) (args : Json) (settle : Settlement)
    (argumentsParse2 : Except String Json) (settle2 : Settlement)
    (fc1 fc2 : FunctionCall)
    (hsame : fc2.call_id = fc1.call_id)
    (hid : fc1.call_id ≠ "")
    (hact : activeCallMatches active fc1.call_id = false)
    (hreg : registry.contains fc1.name = true) :
    processFunctionCall registry active (Except.ok args) settle fc1
      = (some fc1, 1, DispatchOutcome.completed
          [OutMsg.itemCreate fc1.call_id (settledContent fc1.name settle),
           OutMsg.responseCreate])
  ∧ processFunctionCall registry (some fc1) argumentsParse2 settle2 fc2
      = (some fc1, 0, DispatchOutcome.completed []) := by
  constructor
  · unfold processFunctionCall
    rw [if_neg hid, if_neg (by simp [hact]), if_neg (by simpa using hreg)]
    cases settle with
    | fulfilled result =>
        simp [addToToolCallHistory, sendResult, if_neg hid, settledContent]
    | rejected message =>
        simp [addToToolCallHistory, sendResult, if_neg hid, settledContent]
  · unfold processFunctionCall
    rw [hsame, if_neg hid, if_pos (by simp [activeCallMatches])]

/-- Witness for C2 at a concrete pair of duplicate events. -/
theorem dispatch_dedup_single_invocation_witness :
    (({ call_id := "call_1", name := "web_search"} : FunctionCall).call_id
        = ({ call_id := "call_1", name := "web_search"} : FunctionCall).call_id
     ∧ ({ call_id := "call_1", name := "web_search"} : FunctionCall).call_id ≠ ""
     ∧ activeCallMatches none "call_1" = false
     ∧ (["web_search"] : List String).contains "web_search" = true)
  ∧ (processFunctionCall ["web_search"] none (Except.ok (Json.obj []))
        (Settlement.fulfilled { status := "success", content := "[]" })
        { call_id := "call_1", name := "web_search" }
      = (some { call_id := "call_1", name := "web_search" }, 1,
         DispatchOutcome.completed
           [OutMsg.itemCreate "call_1"
             (settledContent "web_search"
               (Settlement.fulfilled { status := "success", content := "[]" })),
            OutMsg.responseCreate])
     ∧ processFunctionCall ["web_search"]
          (some { call_id := "call_1", name := "web_search" })
          (Except.error "redelivered") (Settlement.rejected none)
          { call_id := "call_1", name := "web_search" }
        = (some { call_id := "call_1", name := "web_search" }, 0,
           DispatchOutcome.completed [])) := by
  exact ⟨⟨rfl, by decide, rfl, by decide⟩,
    dispatch_dedup_single_invocation ["web_search"] none (Json.obj [])
      (Settlement.fulfilled { status := "success", content := "[]" })
      (Except.error "redelivered") (Settlement.rejected none)
      { call_id := "call_1", name := "web_search" }
      { call_id := "call_1", name := "web_search" }
      rfl (by decide) rfl (by decide)⟩

/-- Every result `webhookFinish` produces has serialized-JSON content. -/
theorem webhookFinish_content_serialized (host : String) (net : HttpRequest → NetOutcome)
    (store : List (String × EndpointConfig)) (matchingKey : String)
    (endpointConfig : EndpointConfig) (description : Option String)
    (isSearchEndpoint isSearxEngine : Bool)
    (actualMethod : String) (actualPayload : Option Json) :
    ∃ doc : Json,
      (webhookFinish host net store matchingKey endpointConfig description
          isSearchEndpoint isSearxEngine actualMethod actualPayload).1.content
        = Json.serialize doc := by
  unfold webhookFinish
  split <;> exact ⟨_, rfl⟩

/-- Claim C3.  Every registered tool handler — `display_color_palette`,
`web_search` and `webhook_call` — returns, for every argument object and
every oracle outcome, a `ToolResult` whose `content` is the serialization
of some JSON document (success and error paths alike). -/
theorem handler_content_always_serialized_json :
    (∀ args : Json, ∃ doc : Json,
        (display_color_palette_execute args).content = Json.serialize doc)
  ∧ (∀ (query : Option String) (fetchOutcome : Except String Json), ∃ doc : Json,
        (web_search_execute query fetchOutcome).content = Json.serialize doc)
  ∧ (∀ (host : String) (net : HttpRequest → NetOutcome)
        (store : List (String × EndpointConfig)) (args : WebhookArgs),
      ∃ doc : Json,
        (webhook_call_execute host net store args).1.content = Json.serialize doc) := by
  refine ⟨fun args => ⟨args, rfl⟩, fun query fetchOutcome => ?_,
    fun host net store args => ?_⟩
  · unfold web_search_execute
    cases query with
    | none => exact ⟨_, rfl⟩
    | some q =>
        dsimp only
        split
        · exact ⟨_, rfl⟩
        · cases fetchOutcome <;> exact ⟨_, rfl⟩
  · unfold webhook_call_execute
    split
    · exact ⟨_, rfl⟩
    · dsimp only
      repeat' split
      all_goals first
        | exact ⟨_, rfl⟩
        | exact webhookFinish_content_serialized ..

/-- Claim C4.  Endpoint resolution tries, in order: the exact raw key,
the normalized key (underscores to hyphens, lowercased), and a
case-insensitive scan over stored keys comparing each key's lowercased
raw and normalized forms against the normalized raw key; in particular a
store holding `n8n-brave-search` resolves the raw key `n8n_brave_search`
to that stored configuration. -/
theorem endpoint_resolution_order (store : List (String × EndpointConfig)) :
    (∀ rawKey config, lookupKey store rawKey = some config →
        resolveEndpoint store rawKey = some (rawKey, config))
  ∧ (∀ rawKey config, lookupKey store rawKey = none →
        lookupKey store (normalizeKey rawKey) = some config →
        resolveEndpoint store rawKey = some (normalizeKey rawKey, config))
  ∧ (∀ rawKey entry, lookupKey store rawKey = none →
        lookupKey store (normalizeKey rawKey) = none →
        store.find? (fun p => strToLower p.1 == normalizeKey rawKey ||
            replaceUnderscores (strToLower p.1) == normalizeKey rawKey) = some entry →
        resolveEndpoint store rawKey = some (entry.1, entry.2))
  ∧ (∀ config, lookupKey store "n8n_brave_search" = none →
        lookupKey store "n8n-brave-search" = some config →
        resolveEndpoint store "n8n_brave_search" = some ("n8n-brave-search", config)) := by
  refine ⟨?_, ?_, ?_, ?_⟩
  · intro rawKey config h
    unfold resolveEndpoint
    rw [h]
  · intro rawKey config h1 h2
    unfold resolveEndpoint
    rw [h1]
    dsimp only
    rw [h2]
  · intro rawKey entry h1 h2 h3
    unfold resolveEndpoint
    rw [h1]
    dsimp only
    rw [h2]
    dsimp only
    rw [h3]
  · intro config h1 h2
    have hn : normalizeKey "n8n_brave_search" = "n8n-brave-search" := by decide
    unfold resolveEndpoint
    rw [h1, hn]
    dsimp only
    rw [h2]

/-- The store of the C4 scenario: one endpoint under the normalized key. -/
def n8nStore : List (String × EndpointConfig) :=
  [("n8n-brave-search", EndpointConfig.legacy "http://localhost:5678/webhook/brave")]

/-- Witness for C4: resolving the underscored key against `n8nStore`. -/
theorem endpoint_resolution_order_witness :
    (lookupKey n8nStore "n8n_brave_search" = none
     ∧ lookupKey n8nStore "n8n-brave-search"
         = some (EndpointConfig.legacy "http://localhost:5678/webhook/brave"))
  ∧ resolveEndpoint n8nStore "n8n_brave_search"
      = some ("n8n-brave-search", EndpointConfig.legacy "http://localhost:5678/webhook/brave") := by
  exact ⟨⟨by decide, by decide⟩,
    (endpoint_resolution_order n8nStore).2.2.2
      (EndpointConfig.legacy "http://localhost:5678/webhook/brave")
      (by decide) (by decide)⟩

/-- The network oracle used by the concrete scenarios: the transport
always rejects, so any recorded request was at least attempted. -/
def netStub : HttpRequest → NetOutcome :=
  fun _ => NetOutcome.failure "network disabled"

/-- The store of the C5 scenario: only the key `bar-baz`. -/
def barBazStore : List (String × EndpointConfig) :=
  [("bar-baz", EndpointConfig.legacy "http://localhost:3000/hook")]

/-- Claim C5.  An unresolvable endpoint key makes `webhook_call` return
an error `ToolResult` without issuing any HTTP request, and the error
message embeds the comma-joined list of configured keys: whenever that
joined list is nonempty, the message ends with
`Available endpoints: <joined list>`. -/
theorem webhook_unknown_endpoint_error (host : String)
    (net : HttpRequest → NetOutcome) (store : List (String × EndpointConfig))
    (args : WebhookArgs)
    (hres : resolveEndpoint store args.endpoint_key = none) :
    webhook_call_execute host net store args
      = (mkResult "error" (notFoundDoc store args.endpoint_key), [])
  ∧ (String.intercalate ", " (store.map (fun p => p.1)) ≠ "" →
      strEndsWith (notFoundMessage store args.endpoint_key)
        ("Available endpoints: " ++ String.intercalate ", " (store.map (fun p => p.1)))
      = true) := by
  constructor
  · unfold webhook_call_execute
    rw [hres]
  · intro hne
    unfold notFoundMessage
    dsimp only
    rw [if_neg hne]
    exact strEndsWith_append _ _

/-- Witness for C5: key `foo` against the store holding only `bar-baz`. -/
theorem webhook_unknown_endpoint_error_witness :
    (resolveEndpoint barBazStore "foo" = none
     ∧ String.intercalate ", " (barBazStore.map (fun p => p.1)) = "bar-baz")
  ∧ (webhook_call_execute "localhost:3000" netStub barBazStore
        { endpoint_key := "foo", method := none, payload := none, query := none }
       = (mkResult "error" (notFoundDoc barBazStore "foo"), [])
     ∧ strEndsWith (notFoundMessage barBazStore "foo")
         ("Available endpoints: " ++ "bar-baz") = true) := by
  refine ⟨⟨by decide, by decide⟩, ?_, ?_⟩
  · exact (webhook_unknown_endpoint_error "localhost:3000" netStub barBazStore
      { endpoint_key := "foo", method := none, payload := none, query := none }
      (by decide)).1
  · exact (webhook_unknown_endpoint_error "localhost:3000" netStub barBazStore
      { endpoint_key := "foo", method := none, payload := none, query := none }
      (by decide)).2 (by decide)

/-- Claim C6.  For an endpoint whose declared method is `GET` or `POST`
(not `ANY`), every request the invoker issues uses the declared method,
whatever method the caller requested: `callWebhook` itself re-derives the
enforced method from the config (first conjunct), and every request
issued by a full `webhook_call` invocation resolving to that endpoint
carries the declared method (second conjunct). -/
theorem webhook_declared_method_wins (host : String) (net : HttpRequest → NetOutcome)
    (store : List (String × EndpointConfig)) (args : WebhookArgs)
    (matchingKey : String) (cfg : EndpointObj) (m : String)
    (hres : resolveEndpoint store args.endpoint_key
      = some (matchingKey, EndpointConfig.obj cfg))
    (hm : cfg.method = some m)
    (hgp : m = "GET" ∨ m = "POST") :
    (∀ (callerMethod : String) (payload : Option Json),
        (callWebhook host net callerMethod (EndpointConfig.obj cfg) payload).2.map
          (fun r => r.method) = [m])
  ∧ (∀ r ∈ (webhook_call_execute host net store args).2, r.method = m) := by
  have hne : m ≠ "" := by rcases hgp with h | h <;> simp [h]
  have hnany : m ≠ "ANY" := by rcases hgp with h | h <;> simp [h]
  have hreq : ∀ callerMethod,
      callWebhookRequiredMethod callerMethod (EndpointConfig.obj cfg) = m := by
    intro cm
    unfold callWebhookRequiredMethod
    dsimp only
    rw [hm]
    simp [optStr, hne, hnany]
  have hmeth : ∀ (callerMethod : String) (payload : Option Json),
      (callWebhookRequest host callerMethod (EndpointConfig.obj cfg) payload).method = m := by
    intro cm payload
    rw [callWebhookRequest_method, hreq cm]
    rcases hgp with h | h <;> subst h
    · rw [if_pos rfl]
    · rw [if_neg (by decide)]
  constructor
  · intro cm payload
    rw [callWebhook_requests, List.map_cons, List.map_nil, hmeth cm payload]
  · have hfin : ∀ (d : Option String) (se sx : Bool) (am : String) (p : Option Json)
        (r : HttpRequest),
        r ∈ (webhookFinish host net store matchingKey (EndpointConfig.obj cfg)
          d se sx am p).2 → r.method = m := by
      intro d se sx am p r hr
      rw [webhookFinish_requests] at hr
      have heq := List.mem_singleton.mp hr
      subst heq
      exact hmeth _ _
    intro r hr
    unfold webhook_call_execute at hr
    rw [hres] at hr
    dsimp only at hr
    repeat' split at hr
    all_goals first
      | exact hfin _ _ _ _ _ r hr
      | simp at hr

/-- The declared-GET endpoint configuration of the C6 scenario. -/
def weatherCfg : EndpointObj :=
  { emptyEndpointObj with url := "http://localhost:3000/w", method := some "GET" }

/-- The store of the C6 scenario. -/
def weatherStore : List (String × EndpointConfig) :=
  [("weather", EndpointConfig.obj weatherCfg)]

/-- Witness for C6: a caller-requested POST against a declared-GET
endpoint is issued as GET. -/
theorem webhook_declared_method_wins_witness :
    (resolveEndpoint weatherStore "weather" = some ("weather", EndpointConfig.obj weatherCfg)
     ∧ weatherCfg.method = some "GET")
  ∧ (callWebhook "localhost:3000" netStub "POST" (EndpointConfig.obj weatherCfg) none).2.map
      (fun r => r.method) = ["GET"] := by
  refine ⟨⟨by decide, rfl⟩, ?_⟩
  exact (webhook_declared_method_wins "localhost:3000" netStub weatherStore
    { endpoint_key := "weather", method := some "POST", payload := none, query := none }
    "weather" weatherCfg "GET" (by decide) rfl (Or.inl rfl)).1 "POST" none

/-- When the declared method is `ANY`, `callWebhook` enforces the
caller-passed method. -/
theorem callWebhookRequiredMethod_any (callerMethod : String) (cfg : EndpointObj)
    (hany : webhookRequiredMethod (EndpointConfig.obj cfg) = "ANY") :
    callWebhookRequiredMethod callerMethod (EndpointConfig.obj cfg) = callerMethod := by
  unfold callWebhookRequiredMethod
  unfold webhookRequiredMethod at hany
  dsimp only at hany ⊢
  cases h : optStr cfg.method with
  | none => rfl
  | some s =>
      rw [h] at hany
      simp only [Option.getD] at hany
      subst hany
      simp

/-- The search-like (but not SearXNG-like) configuration of the C7
counterexample. -/
def braveCfg : EndpointObj :=
  { emptyEndpointObj with url := "http://localhost:3000/api", method := some "ANY" }

/-- The store of the C7 counterexample. -/
def braveStore : List (String × EndpointConfig) :=
  [("brave-search", EndpointConfig.obj braveCfg)]

/-- The `webhook_call` arguments of the C7 counterexample: caller GET
with a `query` payload. -/
def braveArgs : WebhookArgs :=
  { endpoint_key := "brave-search", method := some "GET",
    payload := some (Json.obj [("query", Json.str "x")]), query := none }

/-- Counterexample to claim C7.  `brave-search` is a search-like endpoint
(key contains "search") with method `ANY`, the caller requests GET with a
`query` payload, yet the issued request keeps method GET: the GET-to-POST
switch only fires for SearXNG-like endpoints, which this is not. -/
theorem searchlike_get_stays_get_counterexample :
    isSearchEndpointKey "brave-search"
        (webhookDescription (EndpointConfig.obj braveCfg)) = true
  ∧ webhookRequiredMethod (EndpointConfig.obj braveCfg) = "ANY"
  ∧ isSearxngEndpoint (endpointUrl (EndpointConfig.obj braveCfg)) "brave-search"
        (webhookDescription (EndpointConfig.obj braveCfg)) = false
  ∧ (webhook_call_execute "localhost:3000" netStub braveStore braveArgs).2.map
      (fun r => r.method) = ["GET"] := by
  exact ⟨by decide, by decide, by decide, by decide⟩

/-- Claim C7, amended.  The GET-to-POST switch fires exactly for
SearXNG-like endpoints: when the resolved endpoint has declared method
`ANY`, the caller requests GET with a truthy `query` payload field, and
`isSearxngEndpoint` holds of the endpoint's URL, matched key and
description, the issued request uses POST. -/
theorem searx_get_query_switches_to_post (host : String)
    (net : HttpRequest → NetOutcome) (store : List (String × EndpointConfig))
    (args : WebhookArgs) (matchingKey : String) (cfg : EndpointObj)
    (hres : resolveEndpoint store args.endpoint_key
      = some (matchingKey, EndpointConfig.obj cfg))
    (hany : webhookRequiredMethod (EndpointConfig.obj cfg) = "ANY")
    (hcaller : optStr args.method = some "GET")
    (hpt : payloadTruthy args.payload = true)
    (hq : payloadQueryTruthy args.payload = true)
    (hsearx : isSearxngEndpoint (endpointUrl (EndpointConfig.obj cfg)) matchingKey
        (webhookDescription (EndpointConfig.obj cfg)) = true) :
    (webhook_call_execute host net store args).2.map (fun r => r.method) = ["POST"] := by
  unfold webhook_call_execute
  rw [hres]
  dsimp only
  have ham : (if webhookRequiredMethod (EndpointConfig.obj cfg) ≠ "ANY"
      then webhookRequiredMethod (EndpointConfig.obj cfg)
      else (optStr args.method).getD "GET") = "GET" := by
    rw [hany, hcaller]
    simp
  rw [ham]
  rw [if_neg (by rintro ⟨h1, h2⟩; exact absurd h1 (by decide))]
  rw [webhookFinish_requests]
  unfold searxFinalMethod
  rw [if_pos ⟨hsearx, rfl, hpt, hq⟩]
  rw [List.map_cons, List.map_nil, callWebhookRequest_method]
  rw [callWebhookRequiredMethod_any "POST" cfg hany]
  rw [if_neg (by decide)]

/-- The SearXNG-like configuration of the C7 witness. -/
def searxCfg : EndpointObj :=
  { emptyEndpointObj with url := "http://localhost:3000/q" }

/-- The store of the C7 witness. -/
def searxStore : List (String × EndpointConfig) :=
  [("searx-local", EndpointConfig.obj searxCfg)]

/-- The `webhook_call` arguments of the C7 witness. -/
def searxArgs : WebhookArgs :=
  { endpoint_key := "searx-local", method := some "GET",
    payload := some (Json.obj [("query", Json.str "x")]), query := none }

/-- Witness for the amended C7: a SearXNG-like endpoint (key contains
"searx") with method `ANY` and a GET `query` payload is issued as POST. -/
theorem searx_get_query_switches_to_post_witness :
    (resolveEndpoint searxStore "searx-local"
        = some ("searx-local", EndpointConfig.obj searxCfg)
     ∧ webhookRequiredMethod (EndpointConfig.obj searxCfg) = "ANY"
     ∧ optStr searxArgs.method = some "GET"
     ∧ payloadTruthy searxArgs.payload = true
     ∧ payloadQueryTruthy searxArgs.payload = true
     ∧ isSearxngEndpoint (endpointUrl (EndpointConfig.obj searxCfg)) "searx-local"
         (webhookDescription (EndpointConfig.obj searxCfg)) = true)
  ∧ (webhook_call_execute "localhost:3000" netStub searxStore searxArgs).2.map
      (fun r => r.method) = ["POST"] := by
  refine ⟨⟨by decide, by decide, by decide, by decide, by decide, by decide⟩, ?_⟩
  exact searx_get_query_switches_to_post "localhost:3000" netStub searxStore searxArgs
    "searx-local" searxCfg (by decide) (by decide) (by decide) (by decide)
    (by decide) (by decide)

/-- The SearXNG switch never alters a POST. -/
theorem searxFinalMethod_post (sx : Bool) (p : Option Json) :
    searxFinalMethod sx "POST" p = "POST" := by
  unfold searxFinalMethod
  rw [if_neg (by rintro ⟨-, h, -, -⟩; exact absurd h (by decide))]

/-- The body of a non-GET request: the serialized payload when truthy,
else the serialized empty object. -/
theorem callWebhookRequest_body_of_post (host method : String)
    (endpointConfig : EndpointConfig) (payload : Option Json)
    (hm : callWebhookRequiredMethod method endpointConfig ≠ "GET") :
    (callWebhookRequest host method endpointConfig payload).body
      = some (if payloadTruthy payload then Json.serialize (payload.getD Json.null)
              else Json.serialize (Json.obj [])) := by
  unfold callWebhookRequest
  dsimp only
  rw [if_neg hm]

/-- Claim C8.  A declared-POST endpoint invoked with no (truthy) payload:
when the arguments also carry no truthy `query`, the handler returns the
PayloadRequired error result — whose message carries the endpoint's
declared description — and issues no request (first conjunct); when the
arguments carry a bare nonempty `query` and the endpoint is search-like,
the payload `{query}` is synthesized instead of erroring and the issued
POST carries its serialization as body (second conjunct). -/
theorem webhook_post_requires_payload (host : String)
    (net : HttpRequest → NetOutcome) (store : List (String × EndpointConfig))
    (args : WebhookArgs) (matchingKey : String) (cfg : EndpointObj)
    (hres : resolveEndpoint store args.endpoint_key
      = some (matchingKey, EndpointConfig.obj cfg))
    (hpost : optStr cfg.method = some "POST")
    (hp : payloadTruthy args.payload = false) :
    (strTruthy args.query = false →
       webhook_call_execute host net store args
         = (mkResult "error" (payloadRequiredDoc matchingKey "POST"
             (webhookDescription (EndpointConfig.obj cfg))), []))
  ∧ (∀ q : String, args.query = some q → q ≠ "" →
       isSearchEndpointKey matchingKey (webhookDescription (EndpointConfig.obj cfg)) = true →
       (webhook_call_execute host net store args).2.map (fun r => (r.method, r.body))
         = [("POST", some (Json.serialize (Json.obj [("query", Json.str q)])))]) := by
  have hreqm : webhookRequiredMethod (EndpointConfig.obj cfg) = "POST" := by
    unfold webhookRequiredMethod
    dsimp only
    rw [hpost]
    rfl
  constructor
  · intro hq0
    unfold webhook_call_execute
    rw [hres]
    dsimp only
    rw [hreqm, if_pos (show ("POST" : String) ≠ "ANY" by decide)]
    rw [if_pos ⟨rfl, hp⟩]
    rw [if_neg (by rintro ⟨-, h⟩; rw [hq0] at h; exact absurd h (by decide))]
    rw [if_pos rfl]
  · intro q hq hqne hsearch
    unfold webhook_call_execute
    rw [hres]
    dsimp only
    rw [hreqm, if_pos (show ("POST" : String) ≠ "ANY" by decide)]
    rw [if_pos ⟨rfl, hp⟩]
    rw [if_pos ⟨hsearch, by rw [hq]; simp [strTruthy, hqne]⟩]
    rw [hq]
    have hrm : callWebhookRequiredMethod "POST" (EndpointConfig.obj cfg) ≠ "GET" := by
      unfold callWebhookRequiredMethod
      dsimp only
      rw [hpost]
      simp
    rw [webhookFinish_requests, searxFinalMethod_post, List.map_cons, List.map_nil]
    dsimp only [Option.getD]
    rw [callWebhookRequest_method, if_neg hrm,
      callWebhookRequest_body_of_post _ _ _ _ hrm]
    rfl

/-- The declared-POST endpoint configuration of the C8 witness. -/
def posterCfg : EndpointObj :=
  { emptyEndpointObj with
      url := "http://localhost:3000/x"
      method := some "POST"
      description := some "Create a record" }

/-- The store of the C8 witness. -/
def posterStore : List (String × EndpointConfig) :=
  [("poster", EndpointConfig.obj posterCfg)]

/-- Witness for C8: a declared-POST endpoint invoked without payload and
without query yields the PayloadRequired error and no request. -/
theorem webhook_post_requires_payload_witness :
    (resolveEndpoint posterStore "poster" = some ("poster", EndpointConfig.obj posterCfg)
     ∧ optStr posterCfg.method = some "POST"
     ∧ payloadTruthy (none : Option Json) = false
     ∧ strTruthy (none : Option String) = false)
  ∧ webhook_call_execute "localhost:3000" netStub posterStore
      { endpoint_key := "poster", method := none, payload := none, query := none }
     = (mkResult "error"
         (payloadRequiredDoc "poster" "POST" (some "Create a record")), []) := by
  refine ⟨⟨by decide, by decide, rfl, rfl⟩, ?_⟩
  exact (webhook_post_requires_payload "localhost:3000" netStub posterStore
    { endpoint_key := "poster", method := none, payload := none, query := none }
    "poster" posterCfg (by decide) (by decide) rfl).1 rfl

/-- Membership in `availableEnvVars` (names of snapshot entries whose
value is `true`) is membership of the `(name, true)` pair. -/
theorem mem_availableEnvVars (env : List (String × Bool)) (v : String) :
    ((env.filter (fun p => p.2)).map (fun p => p.1)).contains v
      = env.contains (v, true) := by
  have hiff : (v ∈ (env.filter (fun p => p.2)).map (fun p => p.1))
      ↔ ((v, true) ∈ env) := by
    simp only [List.mem_map, List.mem_filter]
    constructor
    · rintro ⟨⟨a, b⟩, ⟨hmem, hb⟩, rfl⟩
      have hb2 : b = true := hb
      subst hb2
      exact hmem
    · intro h
      exact ⟨(v, true), ⟨h, rfl⟩, rfl⟩
  rw [Bool.eq_iff_iff]
  simp only [List.contains, List.elem_iff]
  exact hiff

/-- Counterexample to claim C9.  When the env-var snapshot access throws,
`isToolEnabled` catches and returns `false` for any tool with a nonempty
required set: the gate fails closed, hiding `web_search` from
`getAllToolDefinitions` instead of treating it as enabled. -/
theorem gate_fails_closed_counterexample :
    isToolEnabled EnvAccess.throws
        { name := "web_search", requiredEnvVars := ["SEARXNG_URL"] } = false
  ∧ (getAllToolDefinitions EnvAccess.throws false toolsRegistry).contains "web_search"
      = false
  ∧ getAllToolDefinitions EnvAccess.throws false toolsRegistry
      = ["display_color_palette", "webhook_call"] := by
  exact ⟨rfl, by decide, by decide⟩

/-- Claim C9, amended.  With a readable snapshot, `getAllToolDefinitions`
returns exactly the definitions of tools all of whose required flags are
present and `true` (an empty required set is always satisfied); a throw
inside the per-tool snapshot access disables every tool with a nonempty
required set (fail closed); only a failure of the whole filtering pass
makes `getAllToolDefinitions` fall back to every definition (fail
open). -/
theorem enablement_gate_semantics :
    (∀ (env : List (String × Bool)) (registry : List RegisteredTool),
        getAllToolDefinitions (EnvAccess.ok env) false registry
          = (registry.filter (fun t =>
              t.requiredEnvVars.all (fun v => env.contains (v, true)))).map
              (fun t => t.name))
  ∧ (∀ t : RegisteredTool, isToolEnabled EnvAccess.throws t = t.requiredEnvVars.isEmpty)
  ∧ (∀ (acc : EnvAccess) (registry : List RegisteredTool),
        getAllToolDefinitions acc true registry = registry.map (fun t => t.name)) := by
  refine ⟨?_, fun t => rfl, fun acc registry => rfl⟩
  intro env registry
  have ht : ∀ t : RegisteredTool, isToolEnabled (EnvAccess.ok env) t
      = t.requiredEnvVars.all (fun v => env.contains (v, true)) := by
    intro t
    unfold isToolEnabled
    dsimp only
    have hfun : (fun v => ((env.filter (fun p => p.2)).map (fun p => p.1)).contains v)
        = (fun v => env.contains (v, true)) :=
      funext (fun v => mem_availableEnvVars env v)
    by_cases he : t.requiredEnvVars.isEmpty = true
    · rw [if_pos he]
      rw [List.isEmpty_iff.mp he]
      rfl
    · rw [if_neg he, hfun]
  unfold getAllToolDefinitions
  rw [if_neg (by simp)]
  rw [List.filter_congr (fun t _ => ht t)]

/-- The method-`ANY` search-like configuration of the C10 counterexample. -/
def dataSearchCfg : EndpointObj :=
  { emptyEndpointObj with
      url := "http://localhost:3000/x"
      method := some "ANY" }

/-- The store of the C10 counterexample. -/
def dataSearchStore : List (String × EndpointConfig) :=
  [("data-search", EndpointConfig.obj dataSearchCfg)]

/-- The arguments of the C10 counterexample: POST, no payload, but a
bare `query` argument against a search-like endpoint. -/
def dataSearchArgs : WebhookArgs :=
  { endpoint_key := "data-search", method := some "POST",
    payload := none, query := some "x" }

/-- Counterexample to claim C10.  A method-`ANY` endpoint invoked with
caller method POST and no payload: when the endpoint is search-like and
the arguments carry a bare `query`, the synthesized payload `{query}` is
sent, so the issued body is not the empty-object text the claim
promises. -/
theorem any_post_synthesized_body_counterexample :
    webhookRequiredMethod (EndpointConfig.obj dataSearchCfg) = "ANY"
  ∧ dataSearchArgs.payload = none
  ∧ (webhook_call_execute "localhost:3000" netStub dataSearchStore dataSearchArgs).2.map
      (fun r => r.body) = [some (Json.serialize (Json.obj [("query", Json.str "x")]))]
  ∧ Json.serialize (Json.obj [("query", Json.str "x")]) ≠ Json.serialize (Json.obj []) := by
  exact ⟨by decide, rfl, by decide, by decide⟩

/-- Claim C10, amended.  A method-`ANY` endpoint invoked with caller
method POST and no truthy payload, with no synthesizable search query
(the endpoint is not search-like, or the arguments carry no truthy
`query`): no PayloadRequired error is returned — the invoker issues
exactly one POST request — and its body is the serialized empty object. -/
theorem webhook_any_post_defaults_empty_body (host : String)
    (net : HttpRequest → NetOutcome) (store : List (String × EndpointConfig))
    (args : WebhookArgs) (matchingKey : String) (cfg : EndpointObj)
    (hres : resolveEndpoint store args.endpoint_key
      = some (matchingKey, EndpointConfig.obj cfg))
    (hany : webhookRequiredMethod (EndpointConfig.obj cfg) = "ANY")
    (hcaller : optStr args.method = some "POST")
    (hp : payloadTruthy args.payload = false)
    (hnoq : isSearchEndpointKey matchingKey (webhookDescription (EndpointConfig.obj cfg))
              = false
            ∨ strTruthy args.query = false) :
    (webhook_call_execute host net store args).2.map (fun r => (r.method, r.body))
      = [("POST", some (Json.serialize (Json.obj [])))] := by
  unfold webhook_call_execute
  rw [hres]
  dsimp only
  have ham : (if webhookRequiredMethod (EndpointConfig.obj cfg) ≠ "ANY"
      then webhookRequiredMethod (EndpointConfig.obj cfg)
      else (optStr args.method).getD "GET") = "POST" := by
    rw [hany, hcaller]
    simp
  rw [ham]
  rw [if_pos ⟨rfl, hp⟩]
  rw [if_neg (by
    rcases hnoq with h | h
    · rintro ⟨h1, -⟩
      rw [h] at h1
      exact absurd h1 (by decide)
    · rintro ⟨-, h2⟩
      rw [h] at h2
      exact absurd h2 (by decide))]
  rw [if_neg (by rw [hany]; decide)]
  rw [webhookFinish_requests, searxFinalMethod_post, List.map_cons, List.map_nil]
  have hrm : callWebhookRequiredMethod "POST" (EndpointConfig.obj cfg) ≠ "GET" := by
    rw [callWebhookRequiredMethod_any "POST" cfg hany]
    decide
  rw [callWebhookRequest_method, if_neg hrm,
    callWebhookRequest_body_of_post _ _ _ _ hrm]
  rw [if_neg (by rw [hp]; decide)]

/-- The method-`ANY` non-search configuration of the C10 witness. -/
def makerCfg : EndpointObj :=
  { emptyEndpointObj with
      url := "http://localhost:3000/x"
      method := some "ANY" }

/-- The store of the C10 witness. -/
def makerStore : List (String × EndpointConfig) :=
  [("maker", EndpointConfig.obj makerCfg)]

/-- The arguments of the C10 witness. -/
def makerArgs : WebhookArgs :=
  { endpoint_key := "maker", method := some "POST", payload := none, query := none }

/-- Witness for the amended C10: a POST with no payload against a
method-`ANY` non-search endpoint is issued with body `{}`. -/
theorem webhook_any_post_defaults_empty_body_witness :
    (resolveEndpoint makerStore "maker" = some ("maker", EndpointConfig.obj makerCfg)
     ∧ webhookRequiredMethod (EndpointConfig.obj makerCfg) = "ANY"
     ∧ optStr makerArgs.method = some "POST"
     ∧ payloadTruthy makerArgs.payload = false
     ∧ isSearchEndpointKey "maker" (webhookDescription (EndpointConfig.obj makerCfg))
         = false)
  ∧ (webhook_call_execute "localhost:3000" netStub makerStore makerArgs).2.map
      (fun r => (r.method, r.body)) = [("POST", some (Json.serialize (Json.obj [])))] := by
  refine ⟨⟨by decide, by decide, by decide, rfl, by decide⟩, ?_⟩
  exact webhook_any_post_defaults_empty_body "localhost:3000" netStub makerStore
    makerArgs "maker" makerCfg (by decide) (by decide) (by decide) rfl
    (Or.inl (by decide))
